import Mathlib

/-!
A shallow embedding of the QQ poke plugin (`src/plugin.py`), covering the
target-resolution fallback chain (`PokeAction.get_user_and_group_id`), the
300-second cooldown gate, outbound dispatch and action logging
(`PokeAction.execute`), together with theorems about the behaviour of these
operations.

Modelling conventions:
* Python optional strings become `Option String` (`none` is Python `None`);
  Python truthiness of such a value is `truthy` (`None` and `""` are falsy).
* The two external resolver calls (`person_api.get_person_id_by_name` and
  `person_api.get_person_value`) are collapsed into one `ResolverOutcome`
  per queried name: an exception in either call is `throws`, a falsy person
  id is `noPersonId`, and otherwise `found uid` carries the (possibly
  absent) platform user id.
* `send_command` is modelled by `dispatch_outcome : Except String Unit`:
  `Except.error e` is a raised exception whose string form is `e`.
* Wall-clock time (`time.time()`) is the integer `Env.now`: every quantity
  the code compares times against is a whole number of seconds.
* Side effects (poke commands sent, `database_api.store_action_info`
  records, `send_text` messages) are collected in an `Effects` trace.
-/

namespace PokePlugin

/-- A Python string-or-None value: `none` is Python `None`. -/
abbrev PyStr := Option String

/-- Python truthiness of an optional string: `None` and `""` are falsy. -/
def truthy : PyStr → Bool
  | none => false
  | some s => decide (s ≠ "")

/-- Python `str.isdigit` (ASCII fragment): nonempty and all characters digits. -/
def pyIsDigit (s : String) : Bool :=
  decide (s ≠ "") && s.data.all Char.isDigit

/-- The ASCII whitespace characters matched by the regex class `\s`. -/
def isPySpace (c : Char) : Bool :=
  c == ' ' || c == '\t' || c == '\n' || c == '\r' || c == '\x0b' || c == '\x0c'

/-- Drop `key` from the front of `cs`, if `cs` starts with `key`. -/
def dropPfx : List Char → List Char → Option (List Char)
  | [], cs => some cs
  | _ :: _, [] => none
  | k :: ks, c :: cs => if k = c then dropPfx ks cs else none

/-- Match the regex `key\s*(\d+)` anchored at the start of `cs`, returning the
digits captured by the group. -/
def matchKeyAt (key cs : List Char) : Option String :=
  match dropPfx key cs with
  | none => none
  | some rest =>
    match (rest.dropWhile isPySpace).takeWhile Char.isDigit with
    | [] => none
    | ds => some (String.mk ds)

/-- `re.search` for the pattern `key\s*(\d+)`: the capture of the leftmost
match, if any. -/
def reSearchKey (key : List Char) : List Char → Option String
  | [] => matchKeyAt key []
  | c :: cs =>
    match matchKeyAt key (c :: cs) with
    | some d => some d
    | none => reSearchKey key cs

/-- The literal part of the pattern `group_id:\s*(\d+)` (plugin.py line 119). -/
def groupKey : List Char := "group_id:".data

/-- The literal part of the pattern `user_id:\s*(\d+)` (plugin.py line 120). -/
def userKey : List Char := "user_id:".data

/-- Outcome of one identity-resolver query for a display name:
`throws` if either `get_person_id_by_name` or `get_person_value` raises,
`noPersonId` if no person id was found, `found uid` otherwise. -/
inductive ResolverOutcome where
  | throws
  | noPersonId
  | found (uid : PyStr)
deriving DecidableEq

/-- The environment of one `execute` invocation: the `action_data` fields,
the ambient group-id context, the raw LLM response text, the external
collaborators' behaviour, and the current wall-clock time. -/
structure Env where
  action_user_id : PyStr
  action_group_id : PyStr
  action_reply_id : PyStr
  action_reason : Option String
  reasoning : PyStr
  has_message_info : Bool
  message_group_id : PyStr
  chat_stream_group_id : PyStr
  has_instance_group : Bool
  instance_group_id : PyStr
  llm_response_text : String
  resolver : String → ResolverOutcome
  dispatch_outcome : Except String Unit
  now : Int

/-- The `group_id == 'None'` normalization (plugin.py lines 100-101). -/
def pyNoneNorm (g : PyStr) : PyStr :=
  if g = some "None" then none else g

/-- The group-id candidate chain (plugin.py lines 90-101): explicit
`action_data` group id, else message-info group id, else a truthy
chat-stream group id, else the instance attribute, then the `'None'`
normalization. -/
def groupCandidate (env : Env) : PyStr :=
  let g0 := env.action_group_id
  let g1 := if !truthy g0 && env.has_message_info then env.message_group_id else g0
  let g2 := if !truthy g1 && truthy env.chat_stream_group_id then
      env.chat_stream_group_id else g1
  let g3 := if !truthy g2 && env.has_instance_group then env.instance_group_id else g2
  pyNoneNorm g3

/-- Result of `get_user_and_group_id`, together with whether the identity
resolver was invoked. -/
structure ResolveResult where
  user_id : PyStr
  group_id : PyStr
  resolverCalled : Bool
deriving DecidableEq

/-- The last-resort scan of the LLM response text (plugin.py lines 118-126):
a matched group id overrides `gid`; if a user id matches it is returned with
the current group id, otherwise the result is `(None, None)`. -/
def llmFallback (env : Env) (gid : PyStr) (called : Bool) : ResolveResult :=
  let g := match reSearchKey groupKey env.llm_response_text.data with
    | some d => some d
    | none => gid
  match reSearchKey userKey env.llm_response_text.data with
  | some u => ⟨some u, g, called⟩
  | none => ⟨none, none, called⟩

/-- `PokeAction.get_user_and_group_id` (plugin.py lines 88-126). -/
def getUserAndGroupId (env : Env) : ResolveResult :=
  let gid := groupCandidate env
  match env.action_user_id with
  | none => llmFallback env gid false
  | some u =>
    if pyIsDigit u then ⟨some u, gid, false⟩
    else if u = "" then llmFallback env gid false
    else
      match env.resolver u with
      | ResolverOutcome.found (some v) =>
        if v = "" then llmFallback env gid true else ⟨some v, gid, true⟩
      | _ => llmFallback env gid true

/-- The instance-level cooldown fields (plugin.py lines 83-85). -/
structure CooldownState where
  last_poke_user : PyStr
  last_poke_group : PyStr
  last_poke_time : Int
deriving DecidableEq

/-- The class defaults: no last target, timestamp `0`. -/
def initState : CooldownState := ⟨none, none, 0⟩

/-- The `POKE_DEBUG` flag (plugin.py line 23). -/
def POKE_DEBUG : Bool := true

/-- Which transport path a poke command went through: the group-scoped path
(`_send_group_poke`, carrying the group id) or the friend path
(`_send_friend_poke`). -/
inductive Scope where
  | group (gid : String)
  | friend
deriving DecidableEq

/-- The group id of a dispatch scope (`none` for the friend path). -/
def scopeGroup : Scope → PyStr
  | Scope.group g => some g
  | Scope.friend => none

/-- The scope selected by `if group_id:` (plugin.py line 170). -/
def scopeFor (gid : PyStr) : Scope :=
  match gid with
  | some s => if s = "" then Scope.friend else Scope.group s
  | none => Scope.friend

/-- One `SEND_POKE` command as handed to `send_command`. -/
structure DispatchCmd where
  scope : Scope
  qq_id : String
  display_message : String
deriving DecidableEq

/-- One `database_api.store_action_info` record. -/
structure LogRecord where
  action_name : String
  action_done : Bool
  action_build_into_prompt : Bool
  action_prompt_display : String
  reason : String
deriving DecidableEq

/-- The observable side effects of one `execute` invocation. -/
structure Effects where
  dispatches : List DispatchCmd
  logs : List LogRecord
  texts : List String
deriving DecidableEq

/-- No side effects. -/
def noEffects : Effects := ⟨[], [], []⟩

/-- The cooldown gate condition (plugin.py lines 162-166). -/
def cooldownBlocked (st : CooldownState) (uid : String) (gid : PyStr) (now : Int) : Bool :=
  decide (st.last_poke_user = some uid) && decide (st.last_poke_group = gid)
    && decide (now - st.last_poke_time < 300)

/-- The logged reasoning text (plugin.py line 181):
`action_data.get("reason", self.reasoning or "无")`. -/
def pokeReason (env : Env) : String :=
  match env.action_reason with
  | some r => r
  | none =>
    match env.reasoning with
    | some s => if s = "" then "无" else s
    | none => "无"

/-- `action_data.get("user_id", user_id)`: the display name used in the
`SEND_POKE` display message (plugin.py lines 132 and 143). -/
def displayName (env : Env) (uid : String) : String :=
  match env.action_user_id with
  | some s => s
  | none => uid

/-- The dispatch-and-record tail of `execute` (plugin.py lines 169-194):
send the poke through the scope selected by the group id, update the
cooldown fields, then log on success or emit a debug text on failure. -/
def dispatchStage (env : Env) (uid : String) (gid : PyStr) :
    (Bool × String) × CooldownState × Effects :=
  let cmd : DispatchCmd :=
    ⟨scopeFor gid, uid, "[戳了戳 " ++ displayName env uid ++ "]"⟩
  let st2 : CooldownState :=
    ⟨some uid, if truthy gid then gid else none, env.now⟩
  match env.dispatch_outcome with
  | Except.ok _ =>
    ((true, "戳一戳成功"), st2,
      ⟨[cmd],
       [⟨"poke", true, true, "使用了戳一戳，原因：" ++ pokeReason env, pokeReason env⟩],
       []⟩)
  | Except.error e =>
    ((false, "戳一戳失败: " ++ e), st2,
      ⟨[cmd], [], if POKE_DEBUG then ["戳一戳失败: " ++ e] else []⟩)

/-- `PokeAction.execute` (plugin.py lines 151-194), as a pure function from
an invocation environment and the stored cooldown state to the returned
`(ok, message)` pair, the new cooldown state, and the side-effect trace. -/
def execute (env : Env) (st : CooldownState) :
    (Bool × String) × CooldownState × Effects :=
  match (getUserAndGroupId env).user_id with
  | none => ((false, "无法找到目标用户ID"), st, noEffects)
  | some uid =>
    if uid = "" then ((false, "无法找到目标用户ID"), st, noEffects)
    else if cooldownBlocked st uid (getUserAndGroupId env).group_id env.now then
      ((false, "避免重复戳同一个人"), st, noEffects)
    else
      dispatchStage env uid (getUserAndGroupId env).group_id

/-- A concrete first invocation for the cooldown-gate witness. -/
def c1aEnv : Env :=
  ⟨some "111", some "G1", none, none, none, false, none, none, false, none,
   "", fun _ => ResolverOutcome.throws, Except.ok (), 0⟩

/-- The identical target re-invoked 10 seconds later. -/
def c1bEnv : Env :=
  ⟨some "111", some "G1", none, none, none, false, none, none, false, none,
   "", fun _ => ResolverOutcome.throws, Except.ok (), 10⟩

/-- The command dispatched by the first invocation. -/
def c1Cmd : DispatchCmd := ⟨Scope.group "G1", "111", "[戳了戳 111]"⟩

/-- A concrete invocation whose dispatch fails. -/
def c2Env : Env :=
  ⟨some "222", none, none, none, none, false, none, none, false, none,
   "", fun _ => ResolverOutcome.throws, Except.error "boom", 7⟩

/-- A concrete invocation with an all-digits user reference and a resolver
that would return a different id if it were consulted. -/
def c3Env : Env :=
  ⟨some "42", none, none, none, none, false, none, some "777", false, none,
   "", fun _ => ResolverOutcome.found (some "999"), Except.ok (), 0⟩

/-- A concrete invocation whose resolver raises on the given name. -/
def c4aEnv : Env :=
  ⟨some "alice", none, none, none, none, false, none, none, false, none,
   "user_id: 888",
   fun n => if n = "alice" then ResolverOutcome.throws else ResolverOutcome.noPersonId,
   Except.ok (), 0⟩

/-- A concrete invocation whose resolver maps the given name. -/
def c4bEnv : Env :=
  ⟨some "bob", none, none, none, none, false, none, none, false, none,
   "", fun _ => ResolverOutcome.found (some "999"), Except.ok (), 0⟩

/-- A concrete invocation resolvable only from the raw response text, with a
chat-stream group id that the matched `group_id` pattern overrides. -/
def c5Env : Env :=
  ⟨none, none, none, none, none, false, none, some "999", false, none,
   "some text group_id: 123 and user_id: 456",
   fun _ => ResolverOutcome.throws, Except.ok (), 0⟩

/-- A concrete invocation with a fully resolved group id but no user id. -/
def c6Env : Env :=
  ⟨none, none, none, none, none, false, none, some "555", false, none,
   "group_id: 123 but no user id pattern",
   fun _ => ResolverOutcome.throws, Except.ok (), 0⟩

/-- A concrete invocation whose explicit group reference is the literal
string `"None"` while every ambient source is populated. -/
def c7Env : Env :=
  ⟨some "u", some "None", none, none, none, true, some "M1", some "C1", true,
   some "I1", "", fun _ => ResolverOutcome.throws, Except.ok (), 0⟩

/-- A concrete group-scoped invocation whose transport raises. -/
def c8Env : Env :=
  ⟨some "333", some "G8", none, none, none, false, none, none, false, none,
   "", fun _ => ResolverOutcome.throws, Except.error "net down", 0⟩

/-- A concrete successful invocation with no reason field and an
instance-level reasoning string. -/
def c9Env : Env :=
  ⟨some "444", none, none, none, some "feeling friendly", false, none, none,
   false, none, "", fun _ => ResolverOutcome.throws, Except.ok (), 0⟩

/-- A concrete invocation with no resolvable user anywhere. -/
def c10Env : Env :=
  ⟨none, none, none, none, none, false, none, none, false, none,
   "", fun _ => ResolverOutcome.throws, Except.ok (), 0⟩

lemma execute_user_none (env : Env) (st : CooldownState)
    (h : (getUserAndGroupId env).user_id = none) :
    execute env st = ((false, "无法找到目标用户ID"), st, noEffects) := by
  simp [execute, h]

lemma execute_user_empty (env : Env) (st : CooldownState)
    (h : (getUserAndGroupId env).user_id = some "") :
    execute env st = ((false, "无法找到目标用户ID"), st, noEffects) := by
  simp [execute, h]

lemma execute_blocked (env : Env) (st : CooldownState) (uid : String)
    (h : (getUserAndGroupId env).user_id = some uid) (hne : uid ≠ "")
    (hb : cooldownBlocked st uid (getUserAndGroupId env).group_id env.now = true) :
    execute env st = ((false, "避免重复戳同一个人"), st, noEffects) := by
  simp [execute, h, hne, hb]

lemma execute_dispatch (env : Env) (st : CooldownState) (uid : String)
    (h : (getUserAndGroupId env).user_id = some uid) (hne : uid ≠ "")
    (hb : cooldownBlocked st uid (getUserAndGroupId env).group_id env.now = false) :
    execute env st = dispatchStage env uid (getUserAndGroupId env).group_id := by
  simp [execute, h, hne, hb]

lemma dispatchStage_state (env : Env) (uid : String) (gid : PyStr) :
    (dispatchStage env uid gid).2.1
      = ⟨some uid, if truthy gid then gid else none, env.now⟩ := by
  cases h : env.dispatch_outcome <;> simp [dispatchStage, h]

lemma dispatchStage_dispatches (env : Env) (uid : String) (gid : PyStr) :
    (dispatchStage env uid gid).2.2.dispatches
      = [⟨scopeFor gid, uid, "[戳了戳 " ++ displayName env uid ++ "]"⟩] := by
  cases h : env.dispatch_outcome <;> simp [dispatchStage, h]

lemma dispatchStage_ok (env : Env) (uid : String) (gid : PyStr)
    (h : env.dispatch_outcome = Except.ok ()) :
    dispatchStage env uid gid
      = ((true, "戳一戳成功"),
         ⟨some uid, if truthy gid then gid else none, env.now⟩,
         ⟨[⟨scopeFor gid, uid, "[戳了戳 " ++ displayName env uid ++ "]"⟩],
          [⟨"poke", true, true, "使用了戳一戳，原因：" ++ pokeReason env, pokeReason env⟩],
          []⟩) := by
  simp [dispatchStage, h]

lemma dispatchStage_err (env : Env) (uid : String) (gid : PyStr) (e : String)
    (h : env.dispatch_outcome = Except.error e) :
    dispatchStage env uid gid
      = ((false, "戳一戳失败: " ++ e),
         ⟨some uid, if truthy gid then gid else none, env.now⟩,
         ⟨[⟨scopeFor gid, uid, "[戳了戳 " ++ displayName env uid ++ "]"⟩],
          [],
          ["戳一戳失败: " ++ e]⟩) := by
  simp [dispatchStage, h, POKE_DEBUG]

lemma execute_dispatch_inv (env : Env) (st : CooldownState)
    (h : (execute env st).2.2.dispatches ≠ []) :
    ∃ uid, (getUserAndGroupId env).user_id = some uid ∧ uid ≠ "" ∧
      cooldownBlocked st uid (getUserAndGroupId env).group_id env.now = false ∧
      execute env st = dispatchStage env uid (getUserAndGroupId env).group_id := by
  cases hu : (getUserAndGroupId env).user_id with
  | none => rw [execute_user_none env st hu] at h; simp [noEffects] at h
  | some uid =>
    by_cases he : uid = ""
    · subst he
      rw [execute_user_empty env st hu] at h; simp [noEffects] at h
    · by_cases hb : cooldownBlocked st uid (getUserAndGroupId env).group_id env.now = true
      · rw [execute_blocked env st uid hu he hb] at h; simp [noEffects] at h
      · have hb2 : cooldownBlocked st uid (getUserAndGroupId env).group_id env.now = false := by
          simpa using hb
        exact ⟨uid, rfl, he, hb2, execute_dispatch env st uid hu he hb2⟩

lemma scopeGroup_scopeFor (gid : PyStr) :
    scopeGroup (scopeFor gid) = if truthy gid then gid else none := by
  cases gid with
  | none => simp [scopeFor, scopeGroup, truthy]
  | some s =>
    by_cases h : s = "" <;> simp [scopeFor, scopeGroup, truthy, h]

lemma data_append (s t : String) : (s ++ t).data = s.data ++ t.data := by
  cases s; cases t; rfl

lemma fail_ne_noTarget (e : String) : "戳一戳失败: " ++ e ≠ "无法找到目标用户ID" := by
  intro h
  have h2 := congrArg String.data h
  rw [data_append] at h2
  have h3 : '戳' :: ("一戳失败: ".data ++ e.data) = '无' :: "法找到目标用户ID".data := h2
  injection h3 with h4 h5
  exact absurd h4 (by decide)

lemma fail_ne_dup (e : String) : "戳一戳失败: " ++ e ≠ "避免重复戳同一个人" := by
  intro h
  have h2 := congrArg String.data h
  rw [data_append] at h2
  have h3 : '戳' :: ("一戳失败: ".data ++ e.data) = '避' :: "免重复戳同一个人".data := h2
  injection h3 with h4 h5
  exact absurd h4 (by decide)

lemma pyNoneNorm_ne (g : PyStr) : pyNoneNorm g ≠ some "None" := by
  by_cases h : g = some "None" <;> simp [pyNoneNorm, h]

lemma llmFallback_user_none (env : Env) (gid : PyStr) (c : Bool)
    (h : (llmFallback env gid c).user_id = none) :
    (llmFallback env gid c).group_id = none := by
  cases hru : reSearchKey userKey env.llm_response_text.data with
  | none => simp [llmFallback, hru]
  | some u => simp [llmFallback, hru] at h

lemma user_none_group_none (env : Env)
    (h : (getUserAndGroupId env).user_id = none) :
    (getUserAndGroupId env).group_id = none := by
  cases hau : env.action_user_id with
  | none =>
    have e1 : getUserAndGroupId env = llmFallback env (groupCandidate env) false := by
      simp [getUserAndGroupId, hau]
    rw [e1] at h ⊢
    exact llmFallback_user_none _ _ _ h
  | some u =>
    by_cases hd : pyIsDigit u = true
    · have e1 : getUserAndGroupId env = ⟨some u, groupCandidate env, false⟩ := by
        simp [getUserAndGroupId, hau, hd]
      rw [e1] at h
      simp at h
    · have hd2 : pyIsDigit u = false := by simpa using hd
      by_cases he : u = ""
      · have e1 : getUserAndGroupId env = llmFallback env (groupCandidate env) false := by
          simp [getUserAndGroupId, hau, he, pyIsDigit]
        rw [e1] at h ⊢
        exact llmFallback_user_none _ _ _ h
      · cases hr : env.resolver u with
        | throws =>
          have e1 : getUserAndGroupId env = llmFallback env (groupCandidate env) true := by
            simp [getUserAndGroupId, hau, hd2, he, hr]
          rw [e1] at h ⊢
          exact llmFallback_user_none _ _ _ h
        | noPersonId =>
          have e1 : getUserAndGroupId env = llmFallback env (groupCandidate env) true := by
            simp [getUserAndGroupId, hau, hd2, he, hr]
          rw [e1] at h ⊢
          exact llmFallback_user_none _ _ _ h
        | found v =>
          cases v with
          | none =>
            have e1 : getUserAndGroupId env = llmFallback env (groupCandidate env) true := by
              simp [getUserAndGroupId, hau, hd2, he, hr]
            rw [e1] at h ⊢
            exact llmFallback_user_none _ _ _ h
          | some w =>
            by_cases hw : w = ""
            · have e1 : getUserAndGroupId env = llmFallback env (groupCandidate env) true := by
                simp [getUserAndGroupId, hau, hd2, he, hr, hw]
              rw [e1] at h ⊢
              exact llmFallback_user_none _ _ _ h
            · have e1 : getUserAndGroupId env = ⟨some w, groupCandidate env, true⟩ := by
                simp [getUserAndGroupId, hau, hd2, he, hr, hw]
              rw [e1] at h
              simp at h

/-- C1: a second invocation resolving to the exact target pair of a prior
dispatch attempt, within 300 seconds of the stored last-poke time, is
rejected with the duplicate-target message and performs no dispatch; after
at least 300 seconds the identical target is not blocked and dispatch
proceeds. -/
theorem C1_cooldown_gate (env1 env2 : Env) (st : CooldownState) (cmd : DispatchCmd)
    (h1 : (execute env1 st).2.2.dispatches = [cmd])
    (hu : (getUserAndGroupId env2).user_id = some cmd.qq_id)
    (hg : (getUserAndGroupId env2).group_id = scopeGroup cmd.scope) :
    (env2.now - (execute env1 st).2.1.last_poke_time < 300 →
      execute env2 ((execute env1 st).2.1)
        = ((false, "避免重复戳同一个人"), (execute env1 st).2.1, noEffects)) ∧
    (300 ≤ env2.now - (execute env1 st).2.1.last_poke_time →
      (execute env2 ((execute env1 st).2.1)).2.2.dispatches.length = 1 ∧
      (execute env2 ((execute env1 st).2.1)).1 ≠ (false, "避免重复戳同一个人")) := by
  obtain ⟨uid, hu1, hne1, hb1, hex1⟩ := execute_dispatch_inv env1 st (by rw [h1]; simp)
  rw [hex1, dispatchStage_dispatches] at h1
  have hcmd : cmd
      = ⟨scopeFor (getUserAndGroupId env1).group_id, uid,
         "[戳了戳 " ++ displayName env1 uid ++ "]"⟩ := by
    simpa using h1.symm
  have hst : (execute env1 st).2.1
      = ⟨some uid,
         if truthy (getUserAndGroupId env1).group_id then
           (getUserAndGroupId env1).group_id else none,
         env1.now⟩ := by
    rw [hex1, dispatchStage_state]
  have hqq : cmd.qq_id = uid := by rw [hcmd]
  have hsc : scopeGroup cmd.scope
      = (if truthy (getUserAndGroupId env1).group_id then
          (getUserAndGroupId env1).group_id else none) := by
    rw [hcmd]
    exact scopeGroup_scopeFor _
  rw [hqq] at hu
  rw [hsc] at hg
  constructor
  · intro ht
    have hblocked : cooldownBlocked ((execute env1 st).2.1) uid
        ((getUserAndGroupId env2).group_id) env2.now = true := by
      rw [hst] at ht ⊢
      simp at ht
      simp [cooldownBlocked, hg, ht]
    exact execute_blocked env2 _ uid hu hne1 hblocked
  · intro ht
    have hnb : cooldownBlocked ((execute env1 st).2.1) uid
        ((getUserAndGroupId env2).group_id) env2.now = false := by
      rw [hst] at ht ⊢
      simp at ht
      have h3 : ¬ (env2.now - env1.now < 300) := by omega
      simp [cooldownBlocked, h3]
    rw [execute_dispatch env2 _ uid hu hne1 hnb]
    constructor
    · rw [dispatchStage_dispatches]; rfl
    · cases ho : env2.dispatch_outcome with
      | ok a =>
        cases a
        rw [dispatchStage_ok env2 uid _ ho]
        simp
      | error e =>
        rw [dispatchStage_err env2 uid _ e ho]
        simp [Prod.ext_iff]
        intro hcontra
        exact absurd hcontra (fail_ne_dup e)

theorem C1_cooldown_gate_witness :
    execute c1bEnv ((execute c1aEnv initState).2.1)
      = ((false, "避免重复戳同一个人"), (execute c1aEnv initState).2.1, noEffects) :=
  (C1_cooldown_gate c1aEnv c1bEnv initState c1Cmd (by decide) (by decide)
    (by decide)).1 (by decide)

/-- C2: whenever `execute` reaches the dispatch stage, the cooldown fields
are updated regardless of the dispatch outcome: the stored user becomes the
resolved user id, the stored time becomes the current time, and the stored
group becomes the dispatched group id on group dispatch or `none` on direct
dispatch. -/
theorem C2_state_update_on_dispatch (env : Env) (st : CooldownState)
    (h : (execute env st).2.2.dispatches ≠ []) :
    (execute env st).2.1.last_poke_user = (getUserAndGroupId env).user_id ∧
    (execute env st).2.1.last_poke_time = env.now ∧
    (truthy (getUserAndGroupId env).group_id = true →
      (execute env st).2.1.last_poke_group = (getUserAndGroupId env).group_id) ∧
    (truthy (getUserAndGroupId env).group_id = false →
      (execute env st).2.1.last_poke_group = none) := by
  obtain ⟨uid, hu, hne, hb, hex⟩ := execute_dispatch_inv env st h
  rw [hex, dispatchStage_state]
  refine ⟨by simp [hu], rfl, ?_, ?_⟩ <;> intro hgt <;> simp [hgt]

theorem C2_state_update_on_dispatch_witness :
    (execute c2Env initState).2.1.last_poke_user = (getUserAndGroupId c2Env).user_id ∧
    (execute c2Env initState).2.1.last_poke_time = c2Env.now ∧
    (truthy (getUserAndGroupId c2Env).group_id = true →
      (execute c2Env initState).2.1.last_poke_group = (getUserAndGroupId c2Env).group_id) ∧
    (truthy (getUserAndGroupId c2Env).group_id = false →
      (execute c2Env initState).2.1.last_poke_group = none) :=
  C2_state_update_on_dispatch c2Env initState (by decide)

/-- C3: a present all-digits user reference resolves to exactly that string
and the identity resolver is never invoked. -/
theorem C3_numeric_user_shortcircuit (env : Env) (u : String)
    (hu : env.action_user_id = some u) (hne : u ≠ "")
    (hd : ∀ c ∈ u.data, c.isDigit = true) :
    (getUserAndGroupId env).user_id = some u ∧
    (getUserAndGroupId env).resolverCalled = false := by
  have hdig : pyIsDigit u = true := by
    simp [pyIsDigit, hne, List.all_eq_true]
    exact hd
  simp [getUserAndGroupId, hu, hdig]

theorem C3_numeric_user_shortcircuit_witness :
    (getUserAndGroupId c3Env).user_id = some "42" ∧
    (getUserAndGroupId c3Env).resolverCalled = false :=
  C3_numeric_user_shortcircuit c3Env "42" (by decide) (by decide) (by decide)

/-- C4: for a present non-numeric user reference, a resolver exception is
absorbed and resolution continues with the text-pattern fallback, while a
successful resolver lookup yields the resolver's user id. -/
theorem C4_resolver_branch (env : Env) (u : String)
    (hu : env.action_user_id = some u) (hne : u ≠ "") (hnd : pyIsDigit u = false) :
    (env.resolver u = ResolverOutcome.throws →
      getUserAndGroupId env = llmFallback env (groupCandidate env) true) ∧
    (∀ v, v ≠ "" → env.resolver u = ResolverOutcome.found (some v) →
      (getUserAndGroupId env).user_id = some v) := by
  constructor
  · intro hr
    simp [getUserAndGroupId, hu, hnd, hne, hr]
  · intro v hv hr
    simp [getUserAndGroupId, hu, hnd, hne, hr, hv]

theorem C4_resolver_branch_witness :
    getUserAndGroupId c4aEnv = llmFallback c4aEnv (groupCandidate c4aEnv) true ∧
    (getUserAndGroupId c4bEnv).user_id = some "999" :=
  ⟨(C4_resolver_branch c4aEnv "alice" (by decide) (by decide) (by decide)).1 (by decide),
   (C4_resolver_branch c4bEnv "bob" (by decide) (by decide) (by decide)).2 "999"
     (by decide) (by decide)⟩

/-- C5: in the text-pattern fallback, a matched `group_id` pattern overrides
the group id known so far and a matched `user_id` pattern is returned with
whatever group id is known at that point; with no user reference, resolution
is exactly this fallback. -/
theorem C5_text_pattern_fallback (env : Env) (gid : PyStr) (c : Bool) (u : String)
    (hu : reSearchKey userKey env.llm_response_text.data = some u) :
    (env.action_user_id = none →
      getUserAndGroupId env = llmFallback env (groupCandidate env) false) ∧
    (∀ g, reSearchKey groupKey env.llm_response_text.data = some g →
      llmFallback env gid c = ⟨some u, some g, c⟩) ∧
    (reSearchKey groupKey env.llm_response_text.data = none →
      llmFallback env gid c = ⟨some u, gid, c⟩) := by
  refine ⟨?_, ?_, ?_⟩
  · intro h
    simp [getUserAndGroupId, h]
  · intro g hg
    simp [llmFallback, hu, hg]
  · intro hg
    simp [llmFallback, hu, hg]

theorem C5_text_pattern_fallback_witness :
    getUserAndGroupId c5Env = llmFallback c5Env (groupCandidate c5Env) false ∧
    llmFallback c5Env (groupCandidate c5Env) false = ⟨some "456", some "123", false⟩ :=
  ⟨(C5_text_pattern_fallback c5Env (groupCandidate c5Env) false "456" (by decide)).1 rfl,
   (C5_text_pattern_fallback c5Env (groupCandidate c5Env) false "456" (by decide)).2.1
     "123" (by decide)⟩

/-- C6: when no fallback step yields a user id, resolution returns absent
for both components and `execute` fails with the no-target message, with no
dispatch and no state change. -/
theorem C6_no_user_failure (env : Env) (st : CooldownState)
    (h : (getUserAndGroupId env).user_id = none) :
    (getUserAndGroupId env).group_id = none ∧
    execute env st = ((false, "无法找到目标用户ID"), st, noEffects) :=
  ⟨user_none_group_none env h, execute_user_none env st h⟩

theorem C6_no_user_failure_witness :
    (getUserAndGroupId c6Env).group_id = none ∧
    execute c6Env initState = ((false, "无法找到目标用户ID"), initState, noEffects) :=
  C6_no_user_failure c6Env initState (by decide)

/-- C7: the resolved group id prefers an explicit invocation group id, else
the message-metadata group id, else the chat-stream group id, else the
instance attribute, in that order, and the literal string `"None"` is
normalized to absence. -/
theorem C7_group_priority (env : Env) :
    (truthy env.action_group_id = true →
      groupCandidate env = pyNoneNorm env.action_group_id) ∧
    (truthy env.action_group_id = false → env.has_message_info = true →
      truthy env.message_group_id = true →
      groupCandidate env = pyNoneNorm env.message_group_id) ∧
    (truthy env.action_group_id = false →
      (env.has_message_info = false ∨ truthy env.message_group_id = false) →
      truthy env.chat_stream_group_id = true →
      groupCandidate env = pyNoneNorm env.chat_stream_group_id) ∧
    (truthy env.action_group_id = false →
      (env.has_message_info = false ∨ truthy env.message_group_id = false) →
      truthy env.chat_stream_group_id = false → env.has_instance_group = true →
      groupCandidate env = pyNoneNorm env.instance_group_id) ∧
    groupCandidate env ≠ some "None" := by
  refine ⟨?_, ?_, ?_, ?_, ?_⟩
  · intro h1
    simp [groupCandidate, h1]
  · intro h1 h2 h3
    simp [groupCandidate, h1, h2, h3]
  · intro h1 h2 h3
    rcases h2 with h2 | h2
    · simp [groupCandidate, h1, h2, h3]
    · cases hm : env.has_message_info <;> simp [groupCandidate, h1, h2, h3, hm]
  · intro h1 h2 h3 h4
    rcases h2 with h2 | h2
    · simp [groupCandidate, h1, h2, h3, h4]
    · cases hm : env.has_message_info <;> simp [groupCandidate, h1, h2, h3, h4, hm]
  · exact pyNoneNorm_ne _

theorem C7_group_priority_witness :
    groupCandidate c7Env = pyNoneNorm c7Env.action_group_id :=
  (C7_group_priority c7Env).1 (by decide)

/-- C8: a dispatch goes through the group-scoped path exactly when a group
id is present and the friend path otherwise; a transport exception is
converted into a failure result carrying the error string, writes no log,
and (debug mode being on) emits a diagnostic text. -/
theorem C8_dispatch_paths_and_errors (env : Env) (st : CooldownState)
    (h : (execute env st).2.2.dispatches ≠ []) :
    (∀ g, (getUserAndGroupId env).group_id = some g → g ≠ "" →
      ∀ cmd ∈ (execute env st).2.2.dispatches, cmd.scope = Scope.group g) ∧
    (truthy (getUserAndGroupId env).group_id = false →
      ∀ cmd ∈ (execute env st).2.2.dispatches, cmd.scope = Scope.friend) ∧
    (∀ e, env.dispatch_outcome = Except.error e →
      (execute env st).1 = (false, "戳一戳失败: " ++ e) ∧
      (execute env st).2.2.logs = [] ∧
      (execute env st).2.2.texts = (if POKE_DEBUG then ["戳一戳失败: " ++ e] else [])) := by
  obtain ⟨uid, hu, hne, hb, hex⟩ := execute_dispatch_inv env st h
  rw [hex]
  refine ⟨?_, ?_, ?_⟩
  · intro g hg hgne cmd hc
    rw [dispatchStage_dispatches] at hc
    simp at hc
    subst hc
    simp [hg, scopeFor, hgne]
  · intro hgf cmd hc
    rw [dispatchStage_dispatches] at hc
    simp at hc
    subst hc
    cases hgc : (getUserAndGroupId env).group_id with
    | none => simp [scopeFor]
    | some s =>
      rw [hgc] at hgf
      simp [truthy] at hgf
      simp [scopeFor, hgf]
  · intro e he
    rw [dispatchStage_err env uid _ e he]
    simp [POKE_DEBUG]

theorem C8_dispatch_paths_and_errors_witness :
    (∀ cmd ∈ (execute c8Env initState).2.2.dispatches, cmd.scope = Scope.group "G8") ∧
    (execute c8Env initState).1 = (false, "戳一戳失败: " ++ "net down") ∧
    (execute c8Env initState).2.2.logs = [] ∧
    (execute c8Env initState).2.2.texts
      = (if POKE_DEBUG then ["戳一戳失败: " ++ "net down"] else []) :=
  ⟨(C8_dispatch_paths_and_errors c8Env initState (by decide)).1 "G8" (by decide) (by decide),
   (C8_dispatch_paths_and_errors c8Env initState (by decide)).2.2 "net down" rfl⟩

/-- C9: a successful dispatch writes exactly one action-log record with
action name `poke`, done flag, surface-in-prompt flag, and the reasoning
text resolved from the invocation's reason field, then the instance-level
reasoning, then the literal `无`; a failed invocation writes no record. -/
theorem C9_action_log (env : Env) (st : CooldownState) :
    ((execute env st).1.1 = true →
      (execute env st).2.2.logs
        = [⟨"poke", true, true, "使用了戳一戳，原因：" ++ pokeReason env, pokeReason env⟩]) ∧
    ((execute env st).1.1 = false → (execute env st).2.2.logs = []) ∧
    (∀ r, env.action_reason = some r → pokeReason env = r) ∧
    (env.action_reason = none →
      ∀ s, env.reasoning = some s → s ≠ "" → pokeReason env = s) ∧
    (env.action_reason = none → (env.reasoning = none ∨ env.reasoning = some "") →
      pokeReason env = "无") := by
  have main : ((execute env st).1.1 = true →
      (execute env st).2.2.logs
        = [⟨"poke", true, true, "使用了戳一戳，原因：" ++ pokeReason env, pokeReason env⟩]) ∧
      ((execute env st).1.1 = false → (execute env st).2.2.logs = []) := by
    cases hu : (getUserAndGroupId env).user_id with
    | none =>
      rw [execute_user_none env st hu]
      simp [noEffects]
    | some uid =>
      by_cases he : uid = ""
      · subst he
        rw [execute_user_empty env st hu]
        simp [noEffects]
      · by_cases hb : cooldownBlocked st uid (getUserAndGroupId env).group_id env.now = true
        · rw [execute_blocked env st uid hu he hb]
          simp [noEffects]
        · have hb2 : cooldownBlocked st uid (getUserAndGroupId env).group_id env.now = false := by
            simpa using hb
          rw [execute_dispatch env st uid hu he hb2]
          cases ho : env.dispatch_outcome with
          | ok a =>
            cases a
            rw [dispatchStage_ok env uid _ ho]
            simp
          | error e =>
            rw [dispatchStage_err env uid _ e ho]
            simp
  refine ⟨main.1, main.2, ?_, ?_, ?_⟩
  · intro r hr
    simp [pokeReason, hr]
  · intro hr s hs hne
    simp [pokeReason, hr, hs, hne]
  · intro hr hs
    rcases hs with hs | hs <;> simp [pokeReason, hr, hs]

theorem C9_action_log_witness :
    (execute c9Env initState).2.2.logs
      = [⟨"poke", true, true, "使用了戳一戳，原因：" ++ pokeReason c9Env, pokeReason c9Env⟩] ∧
    pokeReason c9Env = "feeling friendly" :=
  ⟨(C9_action_log c9Env initState).1 (by decide),
   (C9_action_log c9Env initState).2.2.2.1 (by decide) "feeling friendly"
     (by decide) (by decide)⟩

/-- C10: when `execute` returns the no-target or duplicate-target outcome,
the cooldown state is unchanged and no dispatch, log write, or text emission
occurs. -/
theorem C10_early_return_preserves_state (env : Env) (st : CooldownState)
    (h : (execute env st).1 = (false, "无法找到目标用户ID") ∨
         (execute env st).1 = (false, "避免重复戳同一个人")) :
    (execute env st).2.1 = st ∧ (execute env st).2.2 = noEffects := by
  cases hu : (getUserAndGroupId env).user_id with
  | none =>
    rw [execute_user_none env st hu]
    exact ⟨rfl, rfl⟩
  | some uid =>
    by_cases he : uid = ""
    · subst he
      rw [execute_user_empty env st hu]
      exact ⟨rfl, rfl⟩
    · by_cases hb : cooldownBlocked st uid (getUserAndGroupId env).group_id env.now = true
      · rw [execute_blocked env st uid hu he hb]
        exact ⟨rfl, rfl⟩
      · exfalso
        have hb2 : cooldownBlocked st uid (getUserAndGroupId env).group_id env.now = false := by
          simpa using hb
        rw [execute_dispatch env st uid hu he hb2] at h
        cases ho : env.dispatch_outcome with
        | ok a =>
          cases a
          rw [dispatchStage_ok env uid _ ho] at h
          simp [Prod.ext_iff] at h
        | error e =>
          rw [dispatchStage_err env uid _ e ho] at h
          rcases h with h | h
          · exact fail_ne_noTarget e (congrArg Prod.snd h)
          · exact fail_ne_dup e (congrArg Prod.snd h)

theorem C10_early_return_preserves_state_witness :
    (execute c10Env initState).2.1 = initState ∧
    (execute c10Env initState).2.2 = noEffects :=
  C10_early_return_preserves_state c10Env initState (Or.inl (by decide))

end PokePlugin
